import Mathlib

set_option linter.unusedVariables false

/-!
Shallow embedding of the Discovery Engine control-plane helpers of this
repository (`app/utils/datastore_manager.py` and
`app/agents/utils/engine_manager.py`).

Each Python function is modelled as a pure Lean function that returns the
list of remote RPC invocations it performs together with its result.  The
remote service itself is a parameter (a function from request to response),
so the theorems quantify over every possible remote behaviour.  Python
exceptions are modelled with `Except`; a Python `TypeError` arising from a
call with the wrong number of positional arguments is modelled by an
explicit argument-list dispatch (`datastore_name_call`).
-/

namespace GeoIntents

/-! ## Enumerations (from `google.cloud.discoveryengine_v1`) -/

inductive ReconciliationMode where
  | FULL
  | INCREMENTAL
deriving DecidableEq, Repr

inductive IndustryVertical where
  | GENERIC
  | MEDIA
deriving DecidableEq, Repr

inductive SolutionType where
  | SOLUTION_TYPE_SEARCH
  | SOLUTION_TYPE_RECOMMENDATION
  | SOLUTION_TYPE_CHAT
deriving DecidableEq, Repr

inductive ContentConfig where
  | NO_CONTENT
  | CONTENT_REQUIRED
  | PUBLIC_WEBSITE
deriving DecidableEq, Repr

inductive SearchTier where
  | SEARCH_TIER_STANDARD
  | SEARCH_TIER_ENTERPRISE
deriving DecidableEq, Repr

inductive SearchAddOn where
  | SEARCH_ADD_ON_LLM
deriving DecidableEq, Repr

/-! ## Error taxonomy

`typeError` models a Python `TypeError`; the remaining constructors model
the error taxonomy named by the claims (`ValidationError`, `ConflictError`,
`AlreadyExists`, remote failures).  The embedded code can only produce the
constructors the Python code can actually raise. -/

inductive Err where
  | validationError (msg : String)
  | conflictError (msg : String)
  | typeError (msg : String)
  | alreadyExists (msg : String)
  | notFound (msg : String)
  | remoteError (msg : String)
deriving DecidableEq, Repr

/-! ## Value objects -/

structure GcsSource where
  input_uris : List String
  data_schema : String
deriving DecidableEq, Repr

structure BigQuerySource where
  project_id : String
  dataset_id : String
  table_id : String
  data_schema : String
deriving DecidableEq, Repr

inductive ImportSource where
  | gcs (src : GcsSource)
  | bigquery (src : BigQuerySource)
deriving DecidableEq, Repr

structure FieldMask where
  paths : List String
deriving DecidableEq, Repr

structure DataStore where
  name : String := ""
  display_name : String := ""
  industry_vertical : IndustryVertical := IndustryVertical.GENERIC
  solution_types : List SolutionType := []
  content_config : ContentConfig := ContentConfig.NO_CONTENT
deriving DecidableEq, Repr

structure SearchEngineConfig where
  search_tier : SearchTier
  search_add_ons : List SearchAddOn
deriving DecidableEq, Repr

structure Engine where
  name : String := ""
  display_name : String := ""
  data_store_ids : List String := []
  solution_type : SolutionType := SolutionType.SOLUTION_TYPE_SEARCH
  industry_vertical : IndustryVertical := IndustryVertical.GENERIC
  disable_analytics : Bool := false
  search_engine_config : Option SearchEngineConfig := none
deriving DecidableEq, Repr

/-! ## Requests -/

structure CreateDataStoreRequest where
  parent : String
  data_store : DataStore
  data_store_id : String
deriving DecidableEq, Repr

structure UpdateDataStoreRequest where
  data_store : DataStore
  update_mask : FieldMask
deriving DecidableEq, Repr

structure ImportDocumentsRequest where
  parent : String
  source : ImportSource
  id_field : String
  reconciliation_mode : ReconciliationMode
deriving DecidableEq, Repr

structure CreateEngineRequest where
  parent : String
  engine : Engine
  engine_id : String
deriving DecidableEq, Repr

structure UpdateEngineRequest where
  engine : Engine
  update_mask : FieldMask
deriving DecidableEq, Repr

/-- One remote invocation recorded by an embedded function. -/
inductive RpcCall where
  | createDataStore (req : CreateDataStoreRequest)
  | updateDataStore (req : UpdateDataStoreRequest)
  | deleteDataStore (name : String)
  | getDataStore (name : String)
  | importDocuments (req : ImportDocumentsRequest)
  | createEngine (req : CreateEngineRequest)
  | updateEngine (req : UpdateEngineRequest)
deriving DecidableEq, Repr

/-! ## Path helpers (`datastore_manager.py` lines 63-81, `engine_manager.py` 36-44) -/

def collection_path (project_id location collection_id : String) : String :=
  "projects/" ++ project_id ++ "/locations/" ++ location ++
    "/collections/" ++ collection_id

/-- `datastore_name` (line 69): the underlying client path template takes
exactly three values: project, location, data store. -/
def datastore_name (project_id location data_store_id : String) : String :=
  "projects/" ++ project_id ++ "/locations/" ++ location ++
    "/dataStores/" ++ data_store_id

/-- A Python call to `datastore_name` with an explicit positional argument
list.  The Python `def` has exactly three parameters and no defaults, so a
call with any other number of positional arguments raises `TypeError`
before the body runs. -/
def datastore_name_call (args : List String) : Except Err String :=
  match args with
  | [p, l, d] => Except.ok (datastore_name p l d)
  | _ => Except.error (Err.typeError
      "datastore_name() takes 3 positional arguments but more were given")

def branch_path (project_id location data_store_id branch_id : String) : String :=
  "projects/" ++ project_id ++ "/locations/" ++ location ++
    "/dataStores/" ++ data_store_id ++ "/branches/" ++ branch_id

def engine_name (project_id location engine_id collection_id : String) : String :=
  "projects/" ++ project_id ++ "/locations/" ++ location ++
    "/collections/" ++ collection_id ++ "/engines/" ++ engine_id

/-! ## Long-running operations and `_poll_operation` (lines 289-297) -/

/-- A remote long-running operation: `doneAt k` is what the `k`-th call to
`op.done()` returns, and `outcome` is what `op.result()` does once the
loop exits (raise the stored error, or return normally). -/
structure Operation where
  doneAt : Nat → Bool
  outcome : Except Err Unit

/-- Result of `_poll_operation`.  The code can only complete or re-raise
the operation's error; `operationTimeout` exists to state the spec's
claimed timeout outcome, which the code never produces. -/
inductive PollResult where
  | completed (polls : Nat)
  | raised (e : Err)
  | operationTimeout
deriving DecidableEq, Repr

/-- The `while not op.done(): time.sleep(...)` loop.  `fuel` bounds the
number of `done()` calls we unfold; `none` means the loop is still running
after `fuel` polls (the Python loop has no other exit). -/
def pollLoop (doneAt : Nat → Bool) : Nat → Nat → Option Nat
  | 0, _ => none
  | fuel + 1, k => if doneAt k then some k else pollLoop doneAt fuel (k + 1)

/-- `_poll_operation` (lines 289-297): spin until `done()`, then
`op.result()` — which raises the remote error if the operation failed —
and return the completed operation.  The returned `polls` counts the
`done()` calls that returned false, i.e. the sleeps taken. -/
def pollOperation (op : Operation) (fuel : Nat) : Option PollResult :=
  match pollLoop op.doneAt fuel 0 with
  | none => none
  | some k =>
    match op.outcome with
    | Except.error e => some (PollResult.raised e)
    | Except.ok _ => some (PollResult.completed k)

/-! ## DataStore lifecycle (`datastore_manager.py`) -/

/-- `create_datastore` (lines 88-127): build the `DataStore` message, issue
`create_data_store`, then `op.result()` — the remote outcome, supplied here
as `remote`, is returned on success and its error re-raised on failure.
There is no exists-ok parameter and no error handling around the call. -/
def create_datastore (remote : CreateDataStoreRequest → Except Err DataStore)
    (project_id location data_store_id display_name : String)
    (industry_vertical : IndustryVertical) (solution_types : List SolutionType)
    (content_config : ContentConfig) (collection_id : String) :
    List RpcCall × Except Err DataStore :=
  let parent := collection_path project_id location collection_id
  let ds : DataStore :=
    { display_name := display_name
      industry_vertical := industry_vertical
      solution_types := solution_types
      content_config := content_config }
  let req : CreateDataStoreRequest :=
    { parent := parent, data_store := ds, data_store_id := data_store_id }
  ([RpcCall.createDataStore req], remote req)

/-- `update_datastore` (lines 142-191).  Line 160 calls `datastore_name`
with four positional arguments (`project_id, location, data_store_id,
collection_id`); the subsequent field-mask logic (lines 162-190) runs only
if that call returns.  `update_mask_paths = some []` and `none` both take
the inference branch, mirroring Python's `if not update_mask_paths`. -/
def update_datastore (remote : UpdateDataStoreRequest → Except Err DataStore)
    (project_id location data_store_id : String)
    (display_name : Option String) (industry_vertical : Option IndustryVertical)
    (solution_types : Option (List SolutionType))
    (content_config : Option ContentConfig)
    (collection_id : String) (update_mask_paths : Option (List String)) :
    List RpcCall × Except Err DataStore :=
  match datastore_name_call [project_id, location, data_store_id, collection_id] with
  | Except.error e => ([], Except.error e)
  | Except.ok name =>
    let current0 : DataStore := { name := name }
    let current1 := match display_name with
      | some v => { current0 with display_name := v }
      | none => current0
    let current2 := match industry_vertical with
      | some v => { current1 with industry_vertical := v }
      | none => current1
    let current3 := match solution_types with
      | some v => { current2 with solution_types := v }
      | none => current2
    let current := match content_config with
      | some v => { current3 with content_config := v }
      | none => current3
    let inferred :=
      (match display_name with | some _ => ["display_name"] | none => []) ++
      (match industry_vertical with | some _ => ["industry_vertical"] | none => []) ++
      (match solution_types with | some _ => ["solution_types"] | none => []) ++
      (match content_config with | some _ => ["content_config"] | none => [])
    let paths := match update_mask_paths with
      | none => inferred
      | some [] => inferred
      | some ps => ps
    let req : UpdateDataStoreRequest :=
      { data_store := current, update_mask := { paths := paths } }
    ([RpcCall.updateDataStore req], remote req)

/-- `delete_datastore` (lines 194-198).  Line 196 calls `datastore_name`
with four positional arguments; the delete RPC on line 197 runs only if
that call returns. -/
def delete_datastore (remote : String → Except Err Unit)
    (project_id location data_store_id collection_id : String) :
    List RpcCall × Except Err Unit :=
  match datastore_name_call [project_id, location, data_store_id, collection_id] with
  | Except.error e => ([], Except.error e)
  | Except.ok name => ([RpcCall.deleteDataStore name], remote name)

/-! ## Document import (`datastore_manager.py` lines 205-282) -/

/-- What an import call produces after the RPC: the unpolled operation
(`poll = false`), a finished poll, or a poll still spinning after the given
fuel.  `failed_locally` models an exception raised instead of the RPC; the
Python import functions contain no code path that produces it. -/
inductive ImportOutcome where
  | failed_locally (e : Err)
  | returned_op
  | polled (r : PollResult)
  | diverged
deriving DecidableEq, Repr

/-- `import_documents_from_gcs` (lines 205-242): build the request —
`id_field` is `id_field or ""` — submit `import_documents` unconditionally,
then poll when `poll` is set.  No validation of `gcs_uris`, `id_field` or
`reconciliation_mode` occurs. -/
def import_documents_from_gcs (remote : ImportDocumentsRequest → Operation)
    (project_id location data_store_id : String) (gcs_uris : List String)
    (data_schema : String) (id_field : Option String)
    (reconciliation_mode : ReconciliationMode)
    (branch_id collection_id : String) (poll : Bool) (poll_fuel : Nat) :
    List RpcCall × ImportOutcome :=
  let parent := branch_path project_id location data_store_id branch_id
  let req : ImportDocumentsRequest :=
    { parent := parent
      source := ImportSource.gcs
        { input_uris := gcs_uris, data_schema := data_schema }
      id_field := (match id_field with | some s => s | none => "")
      reconciliation_mode := reconciliation_mode }
  let op := remote req
  let res := if poll then
      match pollOperation op poll_fuel with
      | none => ImportOutcome.diverged
      | some r => ImportOutcome.polled r
    else ImportOutcome.returned_op
  ([RpcCall.importDocuments req], res)

/-- `import_documents_from_bigquery` (lines 245-282): same shape with a
BigQuery source; the function takes no `id_field` at all and the request's
`id_field` is left at the proto default `""`.  No validation occurs. -/
def import_documents_from_bigquery (remote : ImportDocumentsRequest → Operation)
    (project_id location data_store_id : String)
    (bq_project_id bq_dataset bq_table : String) (data_schema : String)
    (reconciliation_mode : ReconciliationMode)
    (branch_id collection_id : String) (poll : Bool) (poll_fuel : Nat) :
    List RpcCall × ImportOutcome :=
  let parent := branch_path project_id location data_store_id branch_id
  let req : ImportDocumentsRequest :=
    { parent := parent
      source := ImportSource.bigquery
        { project_id := bq_project_id, dataset_id := bq_dataset,
          table_id := bq_table, data_schema := data_schema }
      id_field := ""
      reconciliation_mode := reconciliation_mode }
  let op := remote req
  let res := if poll then
      match pollOperation op poll_fuel with
      | none => ImportOutcome.diverged
      | some r => ImportOutcome.polled r
    else ImportOutcome.returned_op
  ([RpcCall.importDocuments req], res)

/-! ## Engine lifecycle (`engine_manager.py`) -/

/-- `create_engine` (lines 51-96): the engine message always carries
`data_store_ids = [data_store_id]`; a search-engine config is attached for
SEARCH engines; the request is submitted unconditionally and `op.result()`
returns the remote outcome.  No local check that the store id exists. -/
def create_engine (remote : CreateEngineRequest → Except Err Engine)
    (project_id location engine_id display_name data_store_id : String)
    (collection_id : String) (solution_type : SolutionType)
    (industry_vertical : IndustryVertical)
    (search_tier : SearchTier) (search_add_ons : List SearchAddOn) :
    List RpcCall × Except Err Engine :=
  let parent := collection_path project_id location collection_id
  let base : Engine :=
    { display_name := display_name
      data_store_ids := [data_store_id]
      solution_type := solution_type
      industry_vertical := industry_vertical }
  let cfg : SearchEngineConfig :=
    { search_tier := search_tier, search_add_ons := search_add_ons }
  let engine := if solution_type = SolutionType.SOLUTION_TYPE_SEARCH then
      { base with search_engine_config := some cfg }
    else base
  let req : CreateEngineRequest :=
    { parent := parent, engine := engine, engine_id := engine_id }
  ([RpcCall.createEngine req], remote req)

/-- `update_engine` (lines 111-140): set each supplied field on the engine
message and append its path; transmit the request with exactly those
paths.  An all-unset call transmits an empty mask; there is no validation. -/
def update_engine (remote : UpdateEngineRequest → Except Err Engine)
    (project_id location engine_id : String)
    (display_name : Option String) (disable_analytics : Option Bool)
    (collection_id : String) :
    List RpcCall × Except Err Engine :=
  let name := engine_name project_id location engine_id collection_id
  let engine0 : Engine := { name := name }
  let engine1 := match display_name with
    | some v => { engine0 with display_name := v }
    | none => engine0
  let paths1 := match display_name with
    | some _ => ["display_name"]
    | none => []
  let engine2 := match disable_analytics with
    | some v => { engine1 with disable_analytics := v }
    | none => engine1
  let paths2 := match disable_analytics with
    | some _ => paths1 ++ ["disable_analytics"]
    | none => paths1
  let req : UpdateEngineRequest :=
    { engine := engine2, update_mask := { paths := paths2 } }
  ([RpcCall.updateEngine req], remote req)

/-! ## Spec-side comparison definition -/

/-- The field paths the spec says a partial engine update transmits:
exactly those of the fields the caller explicitly supplied (the ones not
left at their `none` sentinel). -/
def supplied_engine_paths (display_name : Option String)
    (disable_analytics : Option Bool) : List String :=
  (match display_name with | some _ => ["display_name"] | none => []) ++
  (match disable_analytics with | some _ => ["disable_analytics"] | none => [])

/-! ## Concrete fixtures used by counterexamples and witnesses -/

/-- A remote operation that is already done and succeeded. -/
def opDoneOk : Operation := { doneAt := fun _ => true, outcome := Except.ok () }

/-- A remote operation that never reports done (still RUNNING forever). -/
def opNever : Operation := { doneAt := fun _ => false, outcome := Except.ok () }

/-- A remote operation that reports done only from the fourth `done()`
call on, then succeeds: three sleeps happen before completion. -/
def opDoneAtThree : Operation :=
  { doneAt := fun k => decide (3 ≤ k), outcome := Except.ok () }

/-- A remote operation that is done at once but whose `result()` raises a
remote failure. -/
def opFail : Operation :=
  { doneAt := fun _ => true, outcome := Except.error (Err.remoteError "import failed") }

/-! ## C3: update_datastore / delete_datastore always raise TypeError -/

/-- C3: every call to `update_datastore` or `delete_datastore` fails with
a `TypeError` — both pass `collection_id` as a fourth positional argument
to the three-parameter `datastore_name` — performing no remote call: the
returned RPC log is empty, so no remote request is constructed or sent. -/
theorem update_delete_datastore_type_error
    (remoteU : UpdateDataStoreRequest → Except Err DataStore)
    (remoteD : String → Except Err Unit)
    (p l ds : String) (dn : Option String) (iv : Option IndustryVertical)
    (st : Option (List SolutionType)) (cc : Option ContentConfig)
    (col : String) (mask : Option (List String)) :
    (∃ msg, update_datastore remoteU p l ds dn iv st cc col mask
        = ([], Except.error (Err.typeError msg)))
    ∧ (∃ msg, delete_datastore remoteD p l ds col
        = ([], Except.error (Err.typeError msg))) :=
  ⟨⟨_, rfl⟩, ⟨_, rfl⟩⟩

/-! ## C5: transmitted field masks are exactly the supplied fields -/

/-- C5: every update call transmits only masks whose paths are exactly
those of the fields the caller explicitly supplied.  `update_engine`
transmits one request whose mask equals `supplied_engine_paths`;
`update_datastore` transmits nothing at all (its RPC log is always empty,
the `TypeError` of C3 firing first), so no transmitted mask can mention an
unsupplied field. -/
theorem update_mask_exactly_supplied_fields
    (remoteE : UpdateEngineRequest → Except Err Engine)
    (p l eid : String) (dn : Option String) (da : Option Bool) (col : String)
    (remoteU : UpdateDataStoreRequest → Except Err DataStore)
    (pd ld dsd : String) (dn2 : Option String) (iv : Option IndustryVertical)
    (st : Option (List SolutionType)) (cc : Option ContentConfig)
    (col2 : String) (mask : Option (List String)) :
    (∃ req : UpdateEngineRequest,
      update_engine remoteE p l eid dn da col
        = ([RpcCall.updateEngine req], remoteE req)
      ∧ req.update_mask.paths = supplied_engine_paths dn da)
    ∧ (update_datastore remoteU pd ld dsd dn2 iv st cc col2 mask).1 = [] := by
  refine ⟨⟨_, rfl, ?_⟩, rfl⟩
  cases dn <;> cases da <;> rfl

/-! ## C6: a no-change update is not rejected -/

/-- The engine value returned by the stub remote in the C6 counterexample. -/
def c6engine : Engine := { name := "resp" }

/-- A stub engine-update remote that always succeeds with `c6engine`. -/
def c6remote : UpdateEngineRequest → Except Err Engine :=
  fun _ => Except.ok c6engine

/-- C6 counterexample: an `update_engine` call supplying no field changes
does not fail with `ValidationError`: it transmits a request whose field
mask is empty and returns the remote's success unchanged. -/
theorem empty_update_empty_mask_cex :
    update_engine c6remote "p" "global" "e1" none none "default_collection"
    = ([RpcCall.updateEngine
        { engine := { name := engine_name "p" "global" "e1" "default_collection" }
          update_mask := { paths := [] } }],
       Except.ok c6engine) := rfl

/-- C6 amended: an update call with every optional field unset is not
rejected with `ValidationError`: `update_engine` transmits an
empty-field-mask request and returns the remote result, while
`update_datastore` with no changes fails before transmitting anything, but
with the `TypeError` of the `datastore_name` arity bug, not
`ValidationError`. -/
theorem empty_update_not_validation_error
    (remoteE : UpdateEngineRequest → Except Err Engine)
    (p l eid col : String)
    (remoteU : UpdateDataStoreRequest → Except Err DataStore)
    (pd ld dsd col2 : String) :
    (∃ req : UpdateEngineRequest,
      update_engine remoteE p l eid none none col
        = ([RpcCall.updateEngine req], remoteE req)
      ∧ req.update_mask.paths = [])
    ∧ (∃ msg, update_datastore remoteU pd ld dsd none none none none col2 none
        = ([], Except.error (Err.typeError msg))) :=
  ⟨⟨_, rfl, rfl⟩, ⟨_, rfl⟩⟩

/-! ## Helper lemmas: the import functions raise nothing locally -/

/-- `import_documents_from_gcs` contains no local raise: its outcome is
never `failed_locally`. -/
theorem import_gcs_not_failed_locally
    (remote : ImportDocumentsRequest → Operation)
    (p l ds : String) (uris : List String) (schema : String)
    (idf : Option String) (mode : ReconciliationMode)
    (br col : String) (poll : Bool) (fuel : Nat) (e : Err) :
    (import_documents_from_gcs remote p l ds uris schema idf mode br col
      poll fuel).2 ≠ ImportOutcome.failed_locally e := by
  intro h
  simp only [import_documents_from_gcs] at h
  split at h
  · split at h <;> exact ImportOutcome.noConfusion h
  · exact ImportOutcome.noConfusion h

/-- `import_documents_from_bigquery` contains no local raise: its outcome
is never `failed_locally`. -/
theorem import_bq_not_failed_locally
    (remote : ImportDocumentsRequest → Operation)
    (p l ds bp bd bt schema : String) (mode : ReconciliationMode)
    (br col : String) (poll : Bool) (fuel : Nat) (e : Err) :
    (import_documents_from_bigquery remote p l ds bp bd bt schema mode br col
      poll fuel).2 ≠ ImportOutcome.failed_locally e := by
  intro h
  simp only [import_documents_from_bigquery] at h
  split at h
  · split at h <;> exact ImportOutcome.noConfusion h
  · exact ImportOutcome.noConfusion h

/-! ## C1: INCREMENTAL without idField is not rejected -/

/-- C1 counterexample: an INCREMENTAL import with no `id_field` does not
fail with `ValidationError` before any remote call — both import functions
invoke the remote import RPC (logged exactly once, with `id_field = ""`)
and resolve the polled operation normally. -/
theorem import_incremental_no_idfield_cex :
    import_documents_from_gcs (fun _ => opDoneOk) "p" "global" "ds"
      ["gs://b/a.json"] "content" none ReconciliationMode.INCREMENTAL
      "default_branch" "default_collection" true 5
    = ([RpcCall.importDocuments
        { parent := "projects/p/locations/global/dataStores/ds/branches/default_branch"
          source := ImportSource.gcs
            { input_uris := ["gs://b/a.json"], data_schema := "content" }
          id_field := ""
          reconciliation_mode := ReconciliationMode.INCREMENTAL }],
       ImportOutcome.polled (PollResult.completed 0))
    ∧ import_documents_from_bigquery (fun _ => opDoneOk) "p" "global" "ds"
        "bqp" "bqd" "bqt" "custom" ReconciliationMode.INCREMENTAL
        "default_branch" "default_collection" true 5
      = ([RpcCall.importDocuments
          { parent := "projects/p/locations/global/dataStores/ds/branches/default_branch"
            source := ImportSource.bigquery
              { project_id := "bqp", dataset_id := "bqd", table_id := "bqt",
                data_schema := "custom" }
            id_field := ""
            reconciliation_mode := ReconciliationMode.INCREMENTAL }],
         ImportOutcome.polled (PollResult.completed 0)) := by
  constructor <;> rfl

/-- C1 amended: neither import function validates `id_field` against the
reconciliation mode: for every remote and every mode — INCREMENTAL with no
`id_field` included — the remote import RPC is invoked exactly once, with
`id_field` defaulted to `""`, and no local error (hence no
`ValidationError`) is ever raised. -/
theorem import_incremental_no_idfield_submits
    (remote : ImportDocumentsRequest → Operation)
    (p l ds : String) (uris : List String) (schema : String)
    (mode : ReconciliationMode) (br col : String) (poll : Bool) (fuel : Nat)
    (bp bd bt : String) :
    (∃ req : ImportDocumentsRequest,
      (import_documents_from_gcs remote p l ds uris schema none mode br col
        poll fuel).1 = [RpcCall.importDocuments req]
      ∧ req.id_field = "" ∧ req.reconciliation_mode = mode)
    ∧ (∀ e, (import_documents_from_gcs remote p l ds uris schema none mode
        br col poll fuel).2 ≠ ImportOutcome.failed_locally e)
    ∧ (∃ req : ImportDocumentsRequest,
      (import_documents_from_bigquery remote p l ds bp bd bt schema mode br
        col poll fuel).1 = [RpcCall.importDocuments req]
      ∧ req.id_field = "" ∧ req.reconciliation_mode = mode)
    ∧ (∀ e, (import_documents_from_bigquery remote p l ds bp bd bt schema
        mode br col poll fuel).2 ≠ ImportOutcome.failed_locally e) := by
  refine ⟨⟨_, rfl, rfl, rfl⟩, ?_, ⟨_, rfl, rfl, rfl⟩, ?_⟩
  · intro e
    exact import_gcs_not_failed_locally remote p l ds uris schema none mode
      br col poll fuel e
  · intro e
    exact import_bq_not_failed_locally remote p l ds bp bd bt schema mode
      br col poll fuel e

/-- C1 witness: the amended theorem instantiated at a concrete
INCREMENTAL import with no id field. -/
theorem import_incremental_no_idfield_witness :
    (import_documents_from_gcs (fun _ => opDoneOk) "p" "global" "ds"
      ["gs://b/a.json"] "content" none ReconciliationMode.INCREMENTAL
      "default_branch" "default_collection" true 5).2
      ≠ ImportOutcome.failed_locally (Err.validationError "id_field required") :=
  (import_incremental_no_idfield_submits (fun _ => opDoneOk) "p" "global"
    "ds" ["gs://b/a.json"] "content" ReconciliationMode.INCREMENTAL
    "default_branch" "default_collection" true 5 "bqp" "bqd" "bqt").2.1
    (Err.validationError "id_field required")

/-! ## C2: no FULL-mode exclusivity per branch -/

/-- The request both FULL submissions of the C2 counterexample build. -/
def c2req : ImportDocumentsRequest :=
  { parent := "projects/p/locations/global/dataStores/ds/branches/default_branch"
    source := ImportSource.gcs
      { input_uris := ["gs://b/a.json"], data_schema := "content" }
    id_field := ""
    reconciliation_mode := ReconciliationMode.FULL }

/-- C2 counterexample: with the remote operation for the branch still
running (`opNever` never reports done — the first FULL job is RUNNING), a
FULL submission on the same branch does not fail with `ConflictError`: it
invokes the import RPC and returns the operation handle.  The submission
function keeps no job state, so a second, identical FULL submission while
the first is RUNNING behaves the same — it is submitted, not rejected. -/
theorem full_submission_while_running_cex :
    opNever.doneAt 0 = false
    ∧ import_documents_from_gcs (fun _ => opNever) "p" "global" "ds"
        ["gs://b/a.json"] "content" none ReconciliationMode.FULL
        "default_branch" "default_collection" false 0
      = ([RpcCall.importDocuments c2req], ImportOutcome.returned_op) :=
  ⟨rfl, rfl⟩

/-- C2 amended: there is no per-branch FULL exclusivity: a FULL submission
consults no running-job state (the function takes none), always invokes
the import RPC exactly once, and never returns a local `ConflictError`,
whatever operations are concurrently running on the remote. -/
theorem full_submission_no_conflict_guard
    (remote : ImportDocumentsRequest → Operation)
    (p l ds : String) (uris : List String) (schema : String)
    (idf : Option String) (br col : String) (poll : Bool) (fuel : Nat) :
    (∃ req : ImportDocumentsRequest,
      (import_documents_from_gcs remote p l ds uris schema idf
        ReconciliationMode.FULL br col poll fuel).1
        = [RpcCall.importDocuments req]
      ∧ req.reconciliation_mode = ReconciliationMode.FULL)
    ∧ (∀ m, (import_documents_from_gcs remote p l ds uris schema idf
        ReconciliationMode.FULL br col poll fuel).2
        ≠ ImportOutcome.failed_locally (Err.conflictError m)) := by
  refine ⟨⟨_, rfl, rfl⟩, ?_⟩
  intro m
  exact import_gcs_not_failed_locally remote p l ds uris schema idf
    ReconciliationMode.FULL br col poll fuel (Err.conflictError m)

/-- C2 witness: the amended theorem instantiated at a concrete FULL
submission against a remote whose operation never completes. -/
theorem full_submission_no_conflict_witness :
    (import_documents_from_gcs (fun _ => opNever) "p" "global" "ds"
      ["gs://b/a.json"] "content" none ReconciliationMode.FULL
      "default_branch" "default_collection" false 0).2
      ≠ ImportOutcome.failed_locally (Err.conflictError "FULL job already running") :=
  (full_submission_no_conflict_guard (fun _ => opNever) "p" "global" "ds"
    ["gs://b/a.json"] "content" none "default_branch" "default_collection"
    false 0).2 "FULL job already running"

/-! ## C8: an empty URI list is not rejected -/

/-- C8 counterexample: a GCS import whose URI list is empty is not
rejected with `ValidationError` before submission: the import RPC is
invoked with `input_uris = []` and the polled operation resolves
normally. -/
theorem import_empty_uris_cex :
    import_documents_from_gcs (fun _ => opDoneOk) "p" "global" "ds"
      [] "content" none ReconciliationMode.FULL
      "default_branch" "default_collection" true 5
    = ([RpcCall.importDocuments
        { parent := "projects/p/locations/global/dataStores/ds/branches/default_branch"
          source := ImportSource.gcs { input_uris := [], data_schema := "content" }
          id_field := ""
          reconciliation_mode := ReconciliationMode.FULL }],
       ImportOutcome.polled (PollResult.completed 0)) := rfl

/-- C8 amended: `import_documents_from_gcs` performs no emptiness check on
its URI list: for every remote and every configuration, the empty source
is submitted — the import RPC is invoked with `input_uris = []` — and no
local error (hence no `ValidationError`) is raised. -/
theorem import_empty_uris_submits
    (remote : ImportDocumentsRequest → Operation)
    (p l ds schema : String) (idf : Option String)
    (mode : ReconciliationMode) (br col : String) (poll : Bool) (fuel : Nat) :
    (∃ req : ImportDocumentsRequest,
      (import_documents_from_gcs remote p l ds [] schema idf mode br col
        poll fuel).1 = [RpcCall.importDocuments req]
      ∧ req.source = ImportSource.gcs { input_uris := [], data_schema := schema })
    ∧ (∀ e, (import_documents_from_gcs remote p l ds [] schema idf mode br
        col poll fuel).2 ≠ ImportOutcome.failed_locally e) := by
  refine ⟨⟨_, rfl, rfl⟩, ?_⟩
  intro e
  exact import_gcs_not_failed_locally remote p l ds [] schema idf mode
    br col poll fuel e

/-- C8 witness: the amended theorem instantiated at a concrete empty-URI
import. -/
theorem import_empty_uris_witness :
    (import_documents_from_gcs (fun _ => opDoneOk) "p" "global" "ds"
      [] "content" none ReconciliationMode.FULL
      "default_branch" "default_collection" true 5).2
      ≠ ImportOutcome.failed_locally (Err.validationError "empty uri list") :=
  (import_empty_uris_submits (fun _ => opDoneOk) "p" "global" "ds" "content"
    none ReconciliationMode.FULL "default_branch" "default_collection"
    true 5).2 (Err.validationError "empty uri list")

/-! ## C4: create has no exists-ok recovery -/

/-- A stub create remote that reports an id conflict, as the remote does
on the second creation of the same `data_store_id`. -/
def c4remote : CreateDataStoreRequest → Except Err DataStore :=
  fun _ => Except.error (Err.alreadyExists "data store dup already exists")

/-- The request the C4 counterexample submits. -/
def c4req : CreateDataStoreRequest :=
  { parent := "projects/p/locations/global/collections/default_collection"
    data_store :=
      { display_name := "Dup Store"
        solution_types := [SolutionType.SOLUTION_TYPE_SEARCH] }
    data_store_id := "dup" }

/-- C4 counterexample: `create_datastore` takes no `existsOk` parameter
(none appears in its signature), and when the remote reports that the id
already exists the call fails with `AlreadyExists` instead of fetching and
returning the existing resource: the RPC log holds only the create
request, so no `getDataStore` fetch happens. -/
theorem create_datastore_already_exists_cex :
    create_datastore c4remote "p" "global" "dup" "Dup Store"
      IndustryVertical.GENERIC [SolutionType.SOLUTION_TYPE_SEARCH]
      ContentConfig.NO_CONTENT "default_collection"
    = ([RpcCall.createDataStore c4req],
       Except.error (Err.alreadyExists "data store dup already exists")) := rfl

/-- C4 amended: `create_datastore` has no exists-ok handling: for every
remote and arguments it performs exactly one `createDataStore` RPC — never
a `getDataStore` fetch — and returns the remote outcome unchanged, so a
remote id-conflict error propagates to the caller as a failure. -/
theorem create_datastore_propagates_already_exists
    (remote : CreateDataStoreRequest → Except Err DataStore)
    (p l dsid dn : String) (iv : IndustryVertical)
    (st : List SolutionType) (cc : ContentConfig) (col : String) :
    ∃ req : CreateDataStoreRequest,
      create_datastore remote p l dsid dn iv st cc col
        = ([RpcCall.createDataStore req], remote req)
      ∧ ∀ n, RpcCall.getDataStore n ∉ (create_datastore remote p l dsid dn iv st cc col).1 := by
  refine ⟨_, rfl, ?_⟩
  intro n h
  simp only [create_datastore, List.mem_singleton] at h
  exact RpcCall.noConfusion h

/-- C4 witness: the amended theorem instantiated at the conflicting
create, extracting that no fetch of the existing resource occurs. -/
theorem create_datastore_propagates_witness :
    RpcCall.getDataStore "dup" ∉
      (create_datastore c4remote "p" "global" "dup" "Dup Store"
        IndustryVertical.GENERIC [SolutionType.SOLUTION_TYPE_SEARCH]
        ContentConfig.NO_CONTENT "default_collection").1 :=
  Exists.elim
    (create_datastore_propagates_already_exists c4remote "p" "global" "dup"
      "Dup Store" IndustryVertical.GENERIC [SolutionType.SOLUTION_TYPE_SEARCH]
      ContentConfig.NO_CONTENT "default_collection")
    (fun req h => h.2 "dup")

/-! ## C7: the poll loop has no timeout -/

/-- C7 counterexample: `_poll_operation` never produces an
`OperationTimeout`.  On an operation that never reports done it is still
polling after 50 polls — i.e. long after any finite timeout budget at ten
seconds per poll has elapsed — having produced no outcome at all; and an
operation done only after three sleeps completes normally, rather than
failing, for any claimed timeout shorter than those three intervals. -/
theorem poll_operation_no_timeout_cex :
    pollOperation opNever 50 = none
    ∧ pollOperation opDoneAtThree 50 = some (PollResult.completed 3) := by
  constructor <;> rfl

/-- C7 amended: `_poll_operation` accepts no timeout: it never yields
`OperationTimeout`; it spins until the operation reports done, and on an
operation that never reports done it produces no result after any number
of polls, rather than failing with a timeout. -/
theorem poll_operation_no_timeout (op : Operation) (fuel : Nat) :
    pollOperation op fuel ≠ some PollResult.operationTimeout
    ∧ ((∀ k, op.doneAt k = false) → pollOperation op fuel = none) := by
  constructor
  · intro h
    simp only [pollOperation] at h
    split at h
    · exact Option.noConfusion h
    · split at h <;>
        exact PollResult.noConfusion (Option.some.inj h)
  · intro hnever
    have hloop : ∀ (f k : Nat), pollLoop op.doneAt f k = none := by
      intro f
      induction f with
      | zero => intro k; rfl
      | succ f ih =>
        intro k
        simp only [pollLoop, hnever k, if_neg]
        exact ih (k + 1)
    simp only [pollOperation, hloop]

/-- C7 witness: the amended theorem applied to the never-done operation. -/
theorem poll_operation_no_timeout_witness :
    pollOperation opNever 7 ≠ some PollResult.operationTimeout
    ∧ pollOperation opNever 7 = none :=
  ⟨(poll_operation_no_timeout opNever 7).1,
   (poll_operation_no_timeout opNever 7).2 (fun k => rfl)⟩

/-! ## C9: poll-completion errors are raised, successes returned -/

/-- C9: once `_poll_operation`'s loop exits, `op.result()` decides the
outcome: if the operation completed with a remote error, that error is
raised to the caller (`PollResult.raised`) — never swallowed and never
reported as a completion — and if the operation succeeded, the completed
operation is returned without error.  (`none` covers the loop still
spinning within the given fuel.) -/
theorem poll_operation_raises_errors (op : Operation) (fuel : Nat) :
    (∀ e, op.outcome = Except.error e →
      pollOperation op fuel = none
      ∨ pollOperation op fuel = some (PollResult.raised e))
    ∧ (op.outcome = Except.ok () →
      pollOperation op fuel = none
      ∨ ∃ k, pollOperation op fuel = some (PollResult.completed k)) := by
  constructor
  · intro e he
    rcases hpl : pollLoop op.doneAt fuel 0 with _ | k
    · left
      simp only [pollOperation, hpl]
    · right
      simp only [pollOperation, hpl, he]
  · intro hok
    rcases hpl : pollLoop op.doneAt fuel 0 with _ | k
    · left
      simp only [pollOperation, hpl]
    · right
      exact ⟨k, by simp only [pollOperation, hpl, hok]⟩

/-- C9 witness: the theorem applied to a failed and to a succeeded
operation, each already done. -/
theorem poll_operation_raises_errors_witness :
    (pollOperation opFail 1 = none
      ∨ pollOperation opFail 1
          = some (PollResult.raised (Err.remoteError "import failed")))
    ∧ (pollOperation opDoneOk 1 = none
      ∨ ∃ k, pollOperation opDoneOk 1 = some (PollResult.completed k)) :=
  ⟨(poll_operation_raises_errors opFail 1).1
      (Err.remoteError "import failed") rfl,
   (poll_operation_raises_errors opDoneOk 1).2 rfl⟩

/-! ## C10: no local check that the referenced store exists -/

/-- A stub engine-create remote that fails the way the real service does
when the referenced data store does not exist. -/
def c10remote : CreateEngineRequest → Except Err Engine :=
  fun _ => Except.error (Err.remoteError "DataStore ghost not found")

/-- The request the C10 counterexample submits. -/
def c10req : CreateEngineRequest :=
  { parent := "projects/p/locations/global/collections/default_collection"
    engine :=
      { display_name := "Engine"
        data_store_ids := ["ghost"]
        search_engine_config :=
          some { search_tier := SearchTier.SEARCH_TIER_STANDARD,
                 search_add_ons := [] } }
    engine_id := "eng" }

/-- C10 counterexample: an engine creation referencing a store id that
does not exist is not caught by local validation before submission: the
request is submitted to the remote (the create RPC is logged) and the
failure comes back as the remote's error, not as a local validation
failure. -/
theorem create_engine_unknown_store_cex :
    create_engine c10remote "p" "global" "eng" "Engine" "ghost"
      "default_collection" SolutionType.SOLUTION_TYPE_SEARCH
      IndustryVertical.GENERIC SearchTier.SEARCH_TIER_STANDARD []
    = ([RpcCall.createEngine c10req],
       Except.error (Err.remoteError "DataStore ghost not found")) := rfl

/-- C10 amended: every engine-creation request references exactly one
store id — `data_store_ids = [data_store_id]`, never empty — but no local
existence check is performed: for every remote and arguments the request
is submitted as one `createEngine` RPC and the result is the remote's
outcome verbatim, so an unknown store id fails remotely, not locally. -/
theorem create_engine_no_local_store_check
    (remote : CreateEngineRequest → Except Err Engine)
    (p l eid dn dsid col : String) (st : SolutionType)
    (iv : IndustryVertical) (tier : SearchTier)
    (addons : List SearchAddOn) :
    ∃ req : CreateEngineRequest,
      create_engine remote p l eid dn dsid col st iv tier addons
        = ([RpcCall.createEngine req], remote req)
      ∧ req.engine.data_store_ids = [dsid] := by
  simp only [create_engine]
  split
  · exact ⟨_, rfl, rfl⟩
  · exact ⟨_, rfl, rfl⟩

end GeoIntents
